import Mathlib

/-!
Verification of the rule-based-profiler / data-assistant core and the
SQLAlchemy data sampler of this repository, as a shallow embedding.

The embedding has two parts.

Part A models `SqlAlchemyDataSampler` from
`great_expectations/execution_engine/split_and_sample/sqlalchemy_data_sampler.py`
(present in the source tree).

Part B models the rule-based-profiler pipeline (reference resolver, metric
aggregator, numeric range estimator, domain builders, parameter builders,
expectation-configuration builder and orchestrator).  The implementation of
that pipeline is not part of the source tree; only its test suite
(`tests/rule_based_profiler/data_assistant/test_volume_data_assistant.py`) is.
The definitions of Part B are therefore modelled from the specification,
with all fixture data (per-batch metric series, rule configurations, the
expected assertion payloads) taken verbatim from the test suite.
-/

/-! # Part A: the SQLAlchemy data sampler -/

/-- Python values that can appear as the `n` sampling parameter of
`sample_using_limit` / `_validate_mssql_limit_param`: an `int`, a `str`, or
any value of another type. -/
inductive SamplingNParam where
  | int (i : Int)
  | str (s : String)
  | other
deriving DecidableEq, Repr

/-- Python `str.isdigit` restricted to ASCII: `True` exactly when the string
is non-empty and every character is a decimal digit (so `""`, `"-1"` and
`"3.5"` are all `False`). -/
def pyStrIsDigit (s : String) : Bool :=
  !s.data.isEmpty && s.data.all Char.isDigit

/-- Errors raised by the sampler; `invalidConfig` models
`ge_exceptions.InvalidConfigError`. -/
inductive SamplerError where
  | invalidConfig (msg : String)
deriving DecidableEq, Repr

/-- `SqlAlchemyDataSampler._validate_mssql_limit_param`: raises
`InvalidConfigError` when `n` is neither `int` nor `str`, or is a `str` that
does not satisfy `str.isdigit`; otherwise returns `None` (modelled `ok ()`).
-/
def validate_mssql_limit_param (n : SamplingNParam) : Except SamplerError Unit :=
  match n with
  | .other =>
      .error (.invalidConfig
        "Please specify your sampling kwargs 'n' parameter as a string or int.")
  | .str s =>
      if ¬ pyStrIsDigit s then
        .error (.invalidConfig
          "If specifying your sampling kwargs 'n' parameter as a string please ensure it is parseable as an integer.")
      else .ok ()
  | .int _ => .ok ()

/-- Round-half-to-even on rationals, the semantics of Python's builtin
`round` with a single argument (used by `sample_using_random`). -/
def pyRound (q : ℚ) : Int :=
  let f : Int := Int.fdiv q.num (q.den : Int)
  let r : ℚ := q - (f : ℚ)
  if r < 1 / 2 then f
  else if 1 / 2 < r then f + 1
  else if f % 2 = 0 then f else f + 1

/-- The query produced by `SqlAlchemyDataSampler.sample_using_random`:
`SELECT * FROM table WHERE where_clause ORDER BY random() LIMIT sample_size`.
Only the parts the code computes are modelled; the `where_clause` is kept
abstract as the row count it filters down to. -/
structure RandomSampleQuery where
  table_name : String
  order_by_random : Bool
  limit : Int
deriving DecidableEq, Repr

/-- `SqlAlchemyDataSampler.sample_using_random`.  `num_rows` is the result of
the `SELECT count(*)` the method issues over the filtered table; `p` is
`batch_spec["sampling_kwargs"]["p"]` (`none` models Python `None`).  The code
runs `p = batch_spec["sampling_kwargs"]["p"] or 1.0`, so a falsy `p` (Python
`None` or `0.0`) is replaced by `1.0`, and then
`sample_size = round(p * num_rows)`. -/
def sample_using_random (table_name : String) (num_rows : ℕ)
    (p : Option ℚ) : RandomSampleQuery :=
  let p' : ℚ := match p with
    | none => 1
    | some q => if q = 0 then 1 else q
  { table_name := table_name
    order_by_random := true
    limit := pyRound (p' * (num_rows : ℚ)) }

/-! # Part B: the rule-based-profiler core

Modelled from the spec: the profiler implementation is absent from the source
tree (only its tests are present), so every definition in this part follows
the specification's component contracts, and all concrete data (metric
series, rule configuration, expected payloads) is taken from the test suite.
-/

/-- Configuration / parameter values: the JSON-like nested structures the
profiler passes around (scalars, reference strings, sequences, mappings). -/
inductive PValue where
  | null
  | bool (b : Bool)
  | int (n : Int)
  | rat (q : ℚ)
  | str (s : String)
  | list (xs : List PValue)
  | obj (kvs : List (String × PValue))
deriving Repr

/-- Key lookup in a `PValue.obj` association list. -/
def objLookup (kvs : List (String × PValue)) (key : String) : Option PValue :=
  match kvs with
  | [] => none
  | (k, v) :: rest => if k = key then some v else objLookup rest key

/-- One step of a dotted reference path: a key access, optionally followed by
an integer index (`value[0]`). -/
inductive PathStep where
  | key (k : String)
  | index (i : Nat)
deriving DecidableEq, Repr

/-- Split a character list on `.`, returning the raw segments. -/
def splitSegs (cs : List Char) (cur : List Char) : List (List Char) :=
  match cs with
  | [] => [cur.reverse]
  | c :: rest =>
      if c = '.' then cur.reverse :: splitSegs rest []
      else splitSegs rest (c :: cur)

/-- Parse the decimal number formed by a list of digit characters. -/
def digitsToNat (cs : List Char) (acc : Nat) : Option Nat :=
  match cs with
  | [] => some acc
  | c :: rest =>
      if c.isDigit then digitsToNat rest (acc * 10 + (c.toNat - '0'.toNat))
      else none

/-- Parse one reference segment: either `name` or `name[i]`. -/
def parseSeg (cs : List Char) : List PathStep :=
  match cs.splitOn '[' with
  | [name] => [.key name.asString]
  | [name, idx] =>
      match idx.dropLast.head?, digitsToNat idx.dropLast 0 with
      | some _, some i => [.key name.asString, .index i]
      | _, _ => [.key cs.asString]
  | _ => [.key cs.asString]

/-- Parse a `$namespace.dotted.path[i]` reference string into its path, or
`none` when the string is not a reference (does not start with `$`). -/
def parseRef (s : String) : Option (List PathStep) :=
  match s.data with
  | '$' :: rest => some ((splitSegs rest []).flatMap parseSeg)
  | _ => none

/-- Dotted-path traversal of a `PValue` (key access on mappings, integer
indexing on sequences), per the reference-resolver contract. -/
def traversePath (v : PValue) (path : List PathStep) : Option PValue :=
  match path with
  | [] => some v
  | .key k :: rest =>
      match v with
      | .obj kvs =>
          match objLookup kvs k with
          | some v' => traversePath v' rest
          | none => none
      | _ => none
  | .index i :: rest =>
      match v with
      | .list xs =>
          match xs.get? i with
          | some v' => traversePath v' rest
          | none => none
      | _ => none

/-- Resolve one reference string against the binding environment. -/
def resolveRef (env : PValue) (s : String) : Option PValue :=
  match parseRef s with
  | some path => traversePath env path
  | none => none

mutual
/-- The reference resolver (spec §4.1): replace every string value of the
form `$namespace.dotted.path[i]` by the value found by dotted-path traversal
of the binding environment; non-reference strings and scalars pass through
unchanged; an unresolvable reference is an error naming the offending path
(`ConfigurationResolutionError`).  Resolution is single-pass: a resolved
value is substituted as-is and not re-scanned for further references. -/
def resolvePV (env : PValue) (v : PValue) : Except String PValue :=
  match v with
  | .str s =>
      match parseRef s with
      | some _ =>
          match resolveRef env s with
          | some r => .ok r
          | none => .error s
      | none => .ok (.str s)
  | .list xs => do pure (.list (← resolvePVList env xs))
  | .obj kvs => do pure (.obj (← resolvePVObj env kvs))
  | x => .ok x

/-- Resolver mapped over a sequence. -/
def resolvePVList (env : PValue) (xs : List PValue) : Except String (List PValue) :=
  match xs with
  | [] => .ok []
  | x :: rest => do pure ((← resolvePV env x) :: (← resolvePVList env rest))

/-- Resolver mapped over a mapping's values. -/
def resolvePVObj (env : PValue) (kvs : List (String × PValue)) :
    Except String (List (String × PValue)) :=
  match kvs with
  | [] => .ok []
  | (k, v) :: rest => do pure ((k, ← resolvePV env v) :: (← resolvePVObj env rest))
end


/-! ## Numeric range estimator (spec §4.3)

The bootstrap resampler must be a deterministic function of `random_seed`;
the concrete pseudo-random generator of the implementation is not part of the
source tree, so the model fixes a 64-bit linear congruential generator
(Knuth's MMIX constants), advanced once per index draw, with the index taken
from the upper bits of the state.

The per-resample statistic is the resample mean `sum / N` (`N` the series
length).  Since every resample has the same size `N`, the model keeps the
empirical distribution as an ascending association list of (resample sum,
multiplicity); the `q`-quantile of the means is the `q`-quantile of the sums
divided by `N`.  Series values are metric counts, all in `[0, 2¹⁶)` in this
repository's fixtures; for kernel-evaluable indexing the series is packed
into one natural number, 16 bits per value (`seriesPack`/`packedGet`, with
`packedGet_seriesPack` relating the packed access to list indexing).

`strictNat` is semantically the identity (`strictNat_eq`); it only forces
intermediate states to literals so that long runs evaluate without deep
thunk chains. -/

/-- Identity on `Nat`, forcing its argument to a literal. -/
def strictNat {α : Type} (n : Nat) (k : Nat → α) : α :=
  match n with
  | 0 => k 0
  | m + 1 => k (m + 1)

/-- The modelled pseudo-random generator. -/
def lcgNext (s : Nat) : Nat :=
  (6364136223846793005 * s + 1442695040888963407) % 18446744073709551616

/-- Pack a series of small non-negative counts into one natural number, 16
bits per entry. -/
def seriesPack : List Int → Nat
  | [] => 0
  | v :: rest => v.toNat % 65536 + 65536 * seriesPack rest

/-- Entry `i` of a packed series. -/
def packedGet (pack : Nat) (i : Nat) : Nat := (pack >>> (i * 16)) % 65536

/-- Draw `k` indices with replacement from a packed series of length `n`
(one generator advance per draw, index from the upper state bits), returning
the advanced generator state and the resample sum. -/
def sampleSum (pack : Nat) (n : Nat) : Nat → Nat → Nat → Nat × Nat
  | s, 0, acc => (s, acc)
  | s, k + 1, acc =>
      let s' := lcgNext s
      sampleSum pack n s' k (acc + packedGet pack ((s' >>> 16) % n))

/-- The empirical distribution of resample sums: ascending association list
of (sum, multiplicity). -/
abbrev SumDist := List (Nat × Nat)

/-- Record one resample sum in the empirical distribution. -/
def insertSorted (v : Nat) : SumDist → SumDist
  | [] => [(v, 1)]
  | (w, c) :: rest =>
      if v < w then (v, 1) :: (w, c) :: rest
      else if v = w then (w, c + 1) :: rest
      else (w, c) :: insertSorted v rest

/-- Force both components of a pair of naturals to literals (semantically the
identity, see `strictPair_eq`). -/
def strictPair {α : Type} (p : Nat × Nat) (k : Nat → Nat → α) : α :=
  match p with
  | (a, b) => strictNat a fun a' => strictNat b fun b' => k a' b'

/-- Draw `count` bootstrap resamples of size `n`, accumulating the empirical
distribution of their sums.  Written with `Nat.rec` and explicit strictness
so long runs evaluate iteratively in the kernel. -/
def bootLoop (pack : Nat) (n : Nat) (count : Nat) (st : Nat × SumDist) : Nat × SumDist :=
  Nat.rec (motive := fun _ => Nat × SumDist → Nat × SumDist) (fun x => x)
    (fun _ ih x =>
      strictPair (sampleSum pack n x.1 n 0) fun s' sum =>
        ih (s', insertSorted sum x.2)) count st

/-- Total multiplicity of an empirical distribution. -/
def distTotal : SumDist → Nat
  | [] => 0
  | (_, c) :: rest => c + distTotal rest

/-- The element of rank `k` (0-based) of the multiset represented by an
ascending (sum, count) distribution: walk the cumulative counts. -/
def distRank (dist : SumDist) (k : Nat) : Nat :=
  match dist with
  | [] => 0
  | (v, c) :: rest => if k < c then v else distRank rest (k - c)

/-- 0-based rank of the lower quantile, `⌊(fpr/2) · numSamples⌋`. -/
def loRank (fpr : ℚ) (numSamples : Nat) : Nat :=
  (Int.fdiv (fpr.num * numSamples) (2 * (fpr.den : Int))).toNat

/-- 0-based rank of the upper quantile, `⌊(1 - fpr/2) · numSamples⌋`. -/
def hiRank (fpr : ℚ) (numSamples : Nat) : Nat :=
  (Int.fdiv ((2 * (fpr.den : Int) - fpr.num) * numSamples) (2 * (fpr.den : Int))).toNat

/-- Force every entry of an empirical distribution to literals (semantically
the identity, see `strictSumDist_eq`). -/
def strictSumDist {α : Type} : SumDist → (SumDist → α) → α
  | [], k => k []
  | (v, c) :: rest, k =>
      strictNat v fun v' => strictNat c fun c' =>
        strictSumDist rest fun rest' => k ((v', c') :: rest')

/-- Force a bootstrap state to literal form (semantically the identity). -/
def strictBootState {α : Type} (st : Nat × SumDist) (k : Nat × SumDist → α) : α :=
  match st with
  | (s, d) => strictNat s fun s' => strictSumDist d fun d' => k (s', d')

/-- `bootLoop`, evaluated 50 resamples at a time with the state forced to
literal form between chunks, so that arbitrarily long runs evaluate with
bounded stack depth; `bootChunks_eq` shows it agrees with `bootLoop`. -/
def bootChunks (pack n : Nat) : Nat → Nat → Nat × SumDist → Nat × SumDist
  | 0, count, st => bootLoop pack n count st
  | fuel + 1, count, st =>
      if count ≤ 50 then bootLoop pack n count st
      else
        strictBootState (bootLoop pack n 50 st) fun st' =>
          bootChunks pack n fuel (count - 50) st'

/-- The bootstrap path of the estimator: draw `numSamples` resamples of size
`N = values.length` with replacement from the series (seeded generator), and
return the `fpr/2` and `1 - fpr/2` empirical quantiles of the distribution
of the resample means.  The quantile mean is the quantile resample sum
divided by `N`, as an exact rational. -/
def bootstrapBounds (values : List Int) (numSamples seed : Nat) (fpr : ℚ) : ℚ × ℚ :=
  let n := values.length
  let dist := (bootChunks (seriesPack values) n numSamples numSamples (seed, [])).2
  (mkRat (distRank dist (loRank fpr numSamples)) n,
   mkRat (distRank dist (hiRank fpr numSamples)) n)

/-- The `exact` estimator: the literal minimum of the observed series. -/
def seriesMin (values : List Int) : ℚ :=
  match values with
  | [] => 0
  | v :: rest => mkRat (rest.foldl min v) 1

/-- The `exact` estimator: the literal maximum of the observed series. -/
def seriesMax (values : List Int) : ℚ :=
  match values with
  | [] => 0
  | v :: rest => mkRat (rest.foldl max v) 1

/-- The `quantiles` estimator: direct empirical quantiles of the raw series,
without resampling (the raw values, all non-negative counts, are ranked via
the same distribution representation). -/
def rawQuantileBounds (values : List Int) (fpr : ℚ) : ℚ × ℚ :=
  let dist := values.foldl (fun d v => insertSorted v.toNat d) []
  (mkRat (distRank dist (loRank fpr values.length)) 1,
   mkRat (distRank dist (hiRank fpr values.length)) 1)

/-- Round half up at `d` decimal places (the numeric policy applied to the
estimated bounds when `round_decimals` is configured). -/
def roundToDecimals (q : ℚ) (d : Nat) : ℚ :=
  mkRat (Int.fdiv (2 * q.num * (10 : Int) ^ d + (q.den : Int)) (2 * (q.den : Int)))
    ((10 : Nat) ^ d)

/-- Number of distinct values in a series. -/
def distinctCount (values : List Int) : Nat := values.dedup.length

/-- An integer as a rational, via the executable constructor. -/
def intToQ (i : Int) : ℚ := mkRat i 1

/-- Truncation limits for estimated bounds (spec §4.3 step 4). -/
structure TruncateValues where
  lower_bound : Option ℚ
  upper_bound : Option ℚ
deriving DecidableEq, Repr

/-- Estimator failure (`InvalidEstimatorConfigError`). -/
inductive EstimatorError where
  | invalidConfig (msg : String)
deriving DecidableEq, Repr

/-- The numeric range estimator (spec §4.3): a degenerate series (at most one
distinct value) short-circuits to that value as both bounds under any
`false_positive_rate`, with no resampling; otherwise the configuration is
validated (`false_positive_rate ∈ [0,1)`, `num_samples > 0`), the selected
estimator produces raw bounds, the configured truncation limits are clamped
on, and the bounds are rounded to `round_decimals` decimal places when
configured. -/
def numericRangeEstimate (estimator : String) (values : List Int) (fpr : ℚ)
    (numSamples seed : Nat) (truncate : TruncateValues)
    (roundDecimals : Option Nat) : Except EstimatorError (ℚ × ℚ) :=
  if distinctCount values ≤ 1 then
    .ok (intToQ (values.headD 0), intToQ (values.headD 0))
  else if fpr < 0 ∨ 1 ≤ fpr then
    .error (.invalidConfig "false_positive_rate must lie in [0, 1)")
  else if numSamples = 0 then
    .error (.invalidConfig "num_samples must be positive")
  else
    match (match estimator with
      | "bootstrap" => some (bootstrapBounds values numSamples seed fpr)
      | "exact" => some (seriesMin values, seriesMax values)
      | "quantiles" => some (rawQuantileBounds values fpr)
      | _ => none) with
    | none => .error (.invalidConfig "unknown estimator")
    | some bounds =>
        let lo := match truncate.lower_bound with
          | some b => max bounds.1 b
          | none => bounds.1
        let hi := match truncate.upper_bound with
          | some b => min bounds.2 b
          | none => bounds.2
        match roundDecimals with
        | some d => .ok (roundToDecimals lo d, roundToDecimals hi d)
        | none => .ok (lo, hi)

/-! ## Fixture data

The 36-batch taxi fixture of the test suite: per-batch values of
`table.row_count` and of `column.distinct_values.count` for each of the 18
columns, in batch order, copied from
`test_volume_data_assistant.py::test_get_metrics_and_expectations`. -/

/-- `table.row_count` per batch. -/
def tableRowCountSeries : List Int := List.replicate 36 10000

/-- `column.distinct_values.count` per batch for column `vendor_id`. -/
def series_vendor_id : List Int :=
  [3, 3, 3, 2, 2, 3, 3, 2, 2, 2, 3, 2,
   3, 2, 2, 2, 2, 2, 3, 2, 3, 3, 2, 2,
   2, 3, 3, 2, 2, 3, 2, 2, 3, 2, 2, 2]

/-- `column.distinct_values.count` per batch for column `pickup_datetime`. -/
def series_pickup_datetime : List Int :=
  [9973, 9968, 9977, 9981, 9976, 9974, 9974, 9965, 9974, 9970, 9977, 9973,
   9984, 9955, 9945, 9977, 9969, 9953, 9976, 9955, 9977, 9970, 9962, 9941,
   9976, 9972, 9975, 9976, 9979, 9977, 9980, 9982, 9983, 9981, 9979, 9973]

/-- `column.distinct_values.count` per batch for column `dropoff_datetime`. -/
def series_dropoff_datetime : List Int :=
  [9972, 9976, 9967, 9984, 9975, 9977, 9971, 9977, 9972, 9967, 9972, 9977,
   9976, 9964, 9968, 9976, 9971, 9965, 9973, 9978, 9986, 9982, 9970, 9939,
   9974, 9975, 9978, 9984, 9979, 9982, 9977, 9975, 9985, 9973, 9979, 9966]

/-- `column.distinct_values.count` per batch for column `passenger_count`. -/
def series_passenger_count : List Int :=
  [6, 7, 7, 7, 8, 7, 7, 7, 7, 7, 8, 7,
   7, 7, 7, 7, 7, 7, 7, 7, 7, 8, 7, 7,
   7, 7, 7, 7, 7, 7, 7, 7, 8, 7, 7, 7]

/-- `column.distinct_values.count` per batch for column `trip_distance`. -/
def series_trip_distance : List Int :=
  [1184, 1192, 1200, 1279, 1249, 1252, 1236, 1141, 1165, 1188, 1206, 1230,
   1240, 1273, 1253, 1204, 1196, 1430, 1225, 1319, 1222, 1266, 1207, 1560,
   1310, 1212, 1293, 1202, 1157, 1299, 1202, 1228, 1227, 1190, 1176, 1371]

/-- `column.distinct_values.count` per batch for column `rate_code_id`. -/
def series_rate_code_id : List Int :=
  [7, 6, 5, 5, 5, 6, 6, 5, 5, 6, 6, 5,
   5, 6, 5, 5, 5, 6, 5, 5, 5, 6, 5, 6,
   5, 6, 6, 5, 5, 5, 6, 5, 5, 6, 6, 6]

/-- `column.distinct_values.count` per batch for column `store_and_fwd_flag`. -/
def series_store_and_fwd_flag : List Int :=
  [2, 2, 2, 2, 2, 2, 2, 2, 2, 2, 2, 2,
   2, 2, 2, 2, 2, 2, 2, 2, 2, 2, 2, 2,
   2, 2, 2, 2, 2, 2, 2, 2, 2, 2, 2, 2]

/-- `column.distinct_values.count` per batch for column `pickup_location_id`. -/
def series_pickup_location_id : List Int :=
  [151, 146, 155, 144, 150, 136, 134, 118, 124, 195, 141, 144,
   137, 208, 157, 187, 199, 211, 145, 209, 138, 143, 193, 214,
   154, 151, 154, 119, 118, 155, 133, 142, 133, 146, 132, 212]

/-- `column.distinct_values.count` per batch for column `dropoff_location_id`. -/
def series_dropoff_location_id : List Int :=
  [199, 192, 205, 203, 204, 203, 203, 197, 196, 222, 205, 198,
   202, 234, 207, 230, 224, 238, 205, 232, 196, 206, 224, 237,
   205, 197, 217, 200, 184, 213, 204, 206, 202, 204, 190, 233]

/-- `column.distinct_values.count` per batch for column `payment_type`. -/
def series_payment_type : List Int :=
  [4, 4, 4, 4, 4, 4, 4, 4, 4, 4, 4, 4,
   4, 4, 4, 4, 4, 4, 4, 4, 4, 4, 4, 4,
   4, 4, 4, 4, 4, 4, 4, 4, 4, 4, 4, 4]

/-- `column.distinct_values.count` per batch for column `fare_amount`. -/
def series_fare_amount : List Int :=
  [187, 170, 201, 246, 252, 176, 169, 148, 161, 568, 184, 246,
   178, 797, 296, 552, 588, 813, 202, 575, 170, 184, 571, 1500,
   248, 199, 253, 153, 153, 238, 161, 259, 168, 267, 156, 575]

/-- `column.distinct_values.count` per batch for column `extra`. -/
def series_extra : List Int :=
  [8, 7, 10, 16, 13, 7, 6, 6, 6, 10, 6, 12,
   12, 10, 14, 11, 10, 10, 12, 12, 10, 11, 11, 11,
   13, 6, 14, 6, 6, 12, 4, 12, 5, 15, 5, 13]

/-- `column.distinct_values.count` per batch for column `mta_tax`. -/
def series_mta_tax : List Int :=
  [4, 3, 3, 3, 4, 3, 3, 3, 3, 4, 3, 4,
   3, 3, 3, 4, 3, 3, 3, 3, 3, 4, 3, 3,
   3, 3, 3, 3, 3, 3, 3, 3, 3, 3, 3, 3]

/-- `column.distinct_values.count` per batch for column `tip_amount`. -/
def series_tip_amount : List Int :=
  [535, 555, 597, 591, 606, 567, 576, 530, 539, 505, 601, 599,
   596, 469, 560, 515, 522, 558, 601, 530, 612, 606, 503, 466,
   608, 600, 595, 574, 532, 579, 559, 572, 557, 576, 573, 539]

/-- `column.distinct_values.count` per batch for column `tolls_amount`. -/
def series_tolls_amount : List Int :=
  [22, 19, 26, 32, 26, 26, 24, 24, 28, 22, 26, 23,
   27, 19, 20, 16, 20, 30, 20, 22, 27, 23, 21, 22,
   28, 24, 27, 21, 20, 31, 25, 27, 23, 29, 24, 27]

/-- `column.distinct_values.count` per batch for column `improvement_surcharge`. -/
def series_improvement_surcharge : List Int :=
  [3, 3, 3, 3, 3, 3, 3, 3, 3, 3, 3, 3,
   3, 3, 3, 3, 3, 3, 3, 3, 3, 3, 3, 3,
   3, 3, 3, 3, 3, 3, 3, 3, 3, 3, 3, 3]

/-- `column.distinct_values.count` per batch for column `total_amount`. -/
def series_total_amount : List Int :=
  [942, 972, 1016, 1070, 1060, 966, 973, 884, 905, 1161, 1000, 1068,
   1012, 1387, 1060, 1154, 1164, 1440, 1016, 1153, 1026, 1044, 1154, 2018,
   1073, 1043, 1077, 953, 898, 1047, 945, 1037, 969, 1036, 942, 1154]

/-- `column.distinct_values.count` per batch for column `congestion_surcharge`. -/
def series_congestion_surcharge : List Int :=
  [1, 0, 3, 3, 3, 0, 0, 0, 0, 3, 0, 3,
   4, 3, 3, 3, 3, 3, 3, 3, 3, 3, 3, 3,
   3, 0, 3, 0, 0, 3, 0, 4, 0, 3, 0, 3]

/-- The fixture's columns, in declaration order. -/
def fixtureColumns : List String :=
  ["vendor_id",
   "pickup_datetime",
   "dropoff_datetime",
   "passenger_count",
   "trip_distance",
   "rate_code_id",
   "store_and_fwd_flag",
   "pickup_location_id",
   "dropoff_location_id",
   "payment_type",
   "fare_amount",
   "extra",
   "mta_tax",
   "tip_amount",
   "tolls_amount",
   "improvement_surcharge",
   "total_amount",
   "congestion_surcharge"]

/-- Per-batch series for a column's `column.distinct_values.count`. -/
def columnSeries (c : String) : List Int :=

  if c = "vendor_id" then series_vendor_id else
  if c = "pickup_datetime" then series_pickup_datetime else
  if c = "dropoff_datetime" then series_dropoff_datetime else
  if c = "passenger_count" then series_passenger_count else
  if c = "trip_distance" then series_trip_distance else
  if c = "rate_code_id" then series_rate_code_id else
  if c = "store_and_fwd_flag" then series_store_and_fwd_flag else
  if c = "pickup_location_id" then series_pickup_location_id else
  if c = "dropoff_location_id" then series_dropoff_location_id else
  if c = "payment_type" then series_payment_type else
  if c = "fare_amount" then series_fare_amount else
  if c = "extra" then series_extra else
  if c = "mta_tax" then series_mta_tax else
  if c = "tip_amount" then series_tip_amount else
  if c = "tolls_amount" then series_tolls_amount else
  if c = "improvement_surcharge" then series_improvement_surcharge else
  if c = "total_amount" then series_total_amount else
  if c = "congestion_surcharge" then series_congestion_surcharge else
  []

/-! ## Domains and domain builders (spec §3, §4.4) -/

/-- A targeted slice of the dataset: the whole table, or one column. -/
structure Domain where
  domain_type : String
  domain_kwargs : List (String × String)
deriving DecidableEq, Repr

/-- The table-scoped domain (empty kwargs). -/
def tableDomain : Domain := ⟨"table", []⟩

/-- The domain of one column. -/
def columnDomain (c : String) : Domain := ⟨"column", [("column", c)]⟩

/-- The two built-in domain builder variants: the table domain builder, and
the column domain builder with its name-based inclusion/exclusion filters
(the fixture leaves all filters unset). -/
inductive DomainBuilder where
  | table
  | column (include_column_names : Option (List String))
      (exclude_column_names : Option (List String))
deriving DecidableEq, Repr

/-- Enumerate the domains a rule applies to: one table-scoped domain, or one
domain per column surviving the filters, in column declaration order. -/
def buildDomains (b : DomainBuilder) (columns : List String) : List Domain :=
  match b with
  | .table => [tableDomain]
  | .column inc exc =>
      ((columns.filter fun c => match inc with
          | some l => c ∈ l
          | none => true).filter fun c => match exc with
          | some l => c ∉ l
          | none => true).map columnDomain

/-! ## Metric aggregator (spec §4.2, §6)

The external metric-computation collaborator is consumed as a black box; the
model gives it the fixture's per-batch values. -/

/-- The metric-computation collaborator over the 36-batch fixture: one value
per batch for the requested metric and domain kwargs. -/
def fixtureMetric (metric_name : String) (domain_kwargs : List (String × String)) :
    List Int :=
  if metric_name = "table.row_count" then tableRowCountSeries
  else if metric_name = "column.distinct_values.count" then
    match domain_kwargs with
    | [("column", c)] => columnSeries c
    | _ => []
  else []

/-- The `details` payload attached to a computed parameter: the metric
configuration that produced it (metric name, domain kwargs, value kwargs,
dependencies) and the number of batches, exactly the payload the test suite
pins for both parameter kinds. -/
def metricConfigDetails (metric_name : String)
    (domain_kwargs : List (String × String)) (numBatches : Nat) : PValue :=
  .obj [("metric_configuration", .obj
      [("metric_name", .str metric_name),
       ("domain_kwargs", .obj (domain_kwargs.map fun kv => (kv.1, .str kv.2))),
       ("metric_value_kwargs", .null),
       ("metric_dependencies", .null)]),
    ("num_batches", .int numBatches)]

/-! ## Parameter builders (spec §4.5) -/

/-- The metric multi-batch parameter builder: exposes the raw per-batch
series as `$parameter.<name>.value` plus `details`. -/
structure MetricMultiBatchParameterBuilder where
  name : String
  metric_name : String
deriving DecidableEq, Repr

/-- The numeric metric range multi-batch parameter builder: fetches the
series and runs the numeric range estimator (spec §4.3); its statistical
fields are references into the rule's variables, as in the fixture
configuration. -/
structure NumericMetricRangeMultiBatchParameterBuilder where
  name : String
  metric_name : String
  estimator : PValue
  false_positive_rate : PValue
  num_bootstrap_samples : PValue
  bootstrap_random_seed : PValue
  truncate_values : PValue
  round_decimals : PValue
deriving Repr

/-- The two parameter builder kinds of the fixture. -/
inductive ParameterBuilder where
  | metricMultiBatch (b : MetricMultiBatchParameterBuilder)
  | numericMetricRange (b : NumericMetricRangeMultiBatchParameterBuilder)
deriving Repr

/-- Read a rational out of a configuration value. -/
def asQ : PValue → Except String ℚ
  | .rat q => .ok q
  | .int i => .ok (intToQ i)
  | _ => .error "expected a number"

/-- Read a natural number out of a configuration value. -/
def asNat : PValue → Except String Nat
  | .int i => .ok i.toNat
  | _ => .error "expected an integer"

/-- Read an optional natural number (`null` is `None`). -/
def asOptNat : PValue → Except String (Option Nat)
  | .null => .ok none
  | .int i => .ok (some i.toNat)
  | _ => .error "expected an integer or null"

/-- Read a string out of a configuration value. -/
def asStr : PValue → Except String String
  | .str s => .ok s
  | _ => .error "expected a string"

/-- Read an optional rational (`null` is `None`). -/
def asOptQ : PValue → Except String (Option ℚ)
  | .null => .ok none
  | .rat q => .ok (some q)
  | .int i => .ok (some (intToQ i))
  | _ => .error "expected a number or null"

/-- Read a `truncate_values` mapping. -/
def asTruncate : PValue → Except String TruncateValues
  | .obj kvs => do
      let lo ← match objLookup kvs "lower_bound" with
        | some v => asOptQ v
        | none => .ok none
      let hi ← match objLookup kvs "upper_bound" with
        | some v => asOptQ v
        | none => .ok none
      pure ⟨lo, hi⟩
  | .null => .ok ⟨none, none⟩
  | _ => .error "expected a truncate_values mapping"

/-- The binding-environment entry for a domain (`$domain.domain_kwargs.*`). -/
def domainEnv (d : Domain) : PValue :=
  .obj [("domain_kwargs", .obj (d.domain_kwargs.map fun kv => (kv.1, .str kv.2)))]

/-- The bounds of a successfully validated range estimate (the estimator is
only consulted after its configuration has been validated, so the error
branch is unreachable there). -/
def estimatedRange (est : String) (series : List Int) (fpr : ℚ)
    (numSamples seed : Nat) (truncate : TruncateValues)
    (roundDecimals : Option Nat) : ℚ × ℚ :=
  match numericRangeEstimate est series fpr numSamples seed truncate roundDecimals with
  | .ok bounds => bounds
  | .error _ => (0, 0)

/-- The range a numeric-metric-range builder computes for a domain: resolve
the builder's statistical fields against the rule variables, fetch the
series, and run the estimator (`(0, 0)` on a resolution failure, which the
caller has already ruled out). -/
def builderRange (vars : List (String × PValue)) (domain : Domain)
    (b : NumericMetricRangeMultiBatchParameterBuilder) : ℚ × ℚ :=
  let env : PValue := .obj [("variables", .obj vars), ("domain", domainEnv domain)]
  let resolved := do
    let est ← asStr (← resolvePV env b.estimator)
    let fpr ← asQ (← resolvePV env b.false_positive_rate)
    let numSamples ← asNat (← resolvePV env b.num_bootstrap_samples)
    let seed ← asNat (← resolvePV env b.bootstrap_random_seed)
    let truncate ← asTruncate (← resolvePV env b.truncate_values)
    let roundDecimals ← asOptNat (← resolvePV env b.round_decimals)
    let series := fixtureMetric b.metric_name domain.domain_kwargs
    Except.ok (estimatedRange est series fpr numSamples seed truncate roundDecimals)
  match resolved with
  | .ok bounds => bounds
  | .error (_ : String) => (0, 0)

/-- Run one parameter builder for one domain (spec §4.5): returns the
parameter's name and its node (`value` plus `details`).  The range builder
resolves its statistical fields against the rule variables, validates the
estimator configuration (spec §7: `InvalidEstimatorConfigError` is caught at
configuration-validation time, before any metric computation runs), fetches
the series through the metric collaborator, and records the estimated
bounds. -/
def runParameterBuilder (vars : List (String × PValue)) (domain : Domain) :
    ParameterBuilder → Except String (String × PValue)
  | .metricMultiBatch b =>
      let series := fixtureMetric b.metric_name domain.domain_kwargs
      .ok (b.name, .obj
        [("value", .list (series.map fun v => .int v)),
         ("details", metricConfigDetails b.metric_name domain.domain_kwargs series.length)])
  | .numericMetricRange b => do
      let env : PValue := .obj [("variables", .obj vars), ("domain", domainEnv domain)]
      let est ← asStr (← resolvePV env b.estimator)
      let fpr ← asQ (← resolvePV env b.false_positive_rate)
      let numSamples ← asNat (← resolvePV env b.num_bootstrap_samples)
      let _seed ← asNat (← resolvePV env b.bootstrap_random_seed)
      let _truncate ← asTruncate (← resolvePV env b.truncate_values)
      let _roundDecimals ← asOptNat (← resolvePV env b.round_decimals)
      if fpr < 0 ∨ 1 ≤ fpr then
        .error "InvalidEstimatorConfigError: false_positive_rate must lie in [0, 1)"
      else if numSamples = 0 then
        .error "InvalidEstimatorConfigError: num_samples must be positive"
      else if ¬ (est = "bootstrap" ∨ est = "exact" ∨ est = "quantiles") then
        .error "InvalidEstimatorConfigError: unknown estimator"
      else
        let series := fixtureMetric b.metric_name domain.domain_kwargs
        .ok (b.name, .obj
          [("value", .list
              [.rat (builderRange vars domain b).1,
               .rat (builderRange vars domain b).2]),
           ("details", metricConfigDetails b.metric_name domain.domain_kwargs series.length)])

/-- Run a list of parameter builders in declaration order, each builder's
output becoming addressable by the later ones (spec §4.5). -/
def runParameterBuilders (vars : List (String × PValue)) (domain : Domain) :
    List ParameterBuilder → List (String × PValue) → Except String (List (String × PValue))
  | [], acc => .ok acc
  | pb :: rest, acc => do
      let node ← runParameterBuilder vars domain pb
      runParameterBuilders vars domain rest (acc ++ [node])

/-! ## Expectation configuration builder (spec §4.6) -/

/-- One fully-resolved assertion configuration. -/
structure ExpectationConfiguration where
  expectation_type : String
  kwargs : List (String × PValue)
  meta : List (String × PValue)
deriving Repr

/-- The declarative template of an assertion: an expectation type, kwargs
and meta whose values may contain references, an optional suppression
condition, and the validation parameter builders evaluated for the template
before emission (as in the fixture's
`validation_parameter_builder_configs`). -/
structure ExpectationConfigurationBuilder where
  expectation_type : String
  kwargs : List (String × PValue)
  meta : List (String × PValue)
  condition : Option String
  validation_parameter_builder_configs : List ParameterBuilder
deriving Repr

/-- Emit one assertion from a template and a populated environment: resolve
every reference in the kwargs and the meta (spec §4.1); a `condition`, if
present, suppresses emission when it resolves to `false`. -/
def buildExpectation (env : PValue) (b : ExpectationConfigurationBuilder) :
    Except String (Option ExpectationConfiguration) := do
  let emit ← match b.condition with
    | none => pure true
    | some ref =>
        match resolveRef env ref with
        | some (.bool v) => pure v
        | some _ => Except.error ref
        | none => Except.error ref
  if emit then
    let kwargs ← resolvePVObj env b.kwargs
    let meta ← resolvePVObj env b.meta
    pure (some ⟨b.expectation_type, kwargs, meta⟩)
  else
    pure none

/-! ## Rules and the orchestrator (spec §4.7) -/

/-- A rule: variables, one domain builder, parameter builders, and
expectation-configuration builders. -/
structure Rule where
  name : String
  «variables» : List (String × PValue)
  domain_builder : DomainBuilder
  parameter_builders : List ParameterBuilder
  expectation_configuration_builders : List ExpectationConfigurationBuilder
deriving Repr

/-- The profiler configuration (configuration surface of spec §6). -/
structure RuleBasedProfilerConfig where
  name : String
  config_version : ℚ
  «variables» : List (String × PValue)
  rules : List Rule
deriving Repr

/-- A citation embedded in the emitted suite's meta: the citation date and
the profiler configuration snapshot. -/
structure Citation where
  citation_date : String
  profiler_config : RuleBasedProfilerConfig
deriving Repr

/-- The profiler run result (result surface of spec §6): metrics by domain,
the emitted assertion configurations in encounter order, the emitted suite's
meta citations, and the snapshot of the executed configuration. -/
structure DataAssistantResult where
  metrics_by_domain : List (Domain × List (String × PValue))
  expectation_configurations : List ExpectationConfiguration
  expectation_suite_name : String
  expectation_suite_meta_citations : List Citation
  profiler_config : RuleBasedProfilerConfig
deriving Repr

/-- Evaluate one domain of a rule: run the rule's parameter builders, then,
per expectation builder, its validation parameter builders, resolve the
template against `$variables` / `$parameter` / `$domain`, and emit.  Returns
the domain's serialized metric nodes (those of the rule-level builders,
keyed `$parameter.<name>`) and the emitted configurations. -/
def runDomainBuilders (vars : List (String × PValue)) (domain : Domain)
    (pbs : List ParameterBuilder) :
    List ExpectationConfigurationBuilder → List (String × PValue) →
      List ExpectationConfiguration → Except String (List ExpectationConfiguration)
  | [], _, acc => .ok acc
  | ecb :: rest, params, acc => do
      let params' ← runParameterBuilders vars domain
        ecb.validation_parameter_builder_configs params
      let env : PValue := .obj
        [("variables", .obj vars), ("parameter", .obj params'),
         ("domain", domainEnv domain)]
      match ← buildExpectation env ecb with
      | some cfg => runDomainBuilders vars domain pbs rest params (acc ++ [cfg])
      | none => runDomainBuilders vars domain pbs rest params acc

/-- Evaluate one rule domain by domain (spec §4.7 state machine), collecting
metric nodes and emitted configurations in encounter order. -/
def runRuleDomains (rule : Rule) :
    List Domain → List (Domain × List (String × PValue)) →
      List ExpectationConfiguration →
      Except String (List (Domain × List (String × PValue)) × List ExpectationConfiguration)
  | [], metricsAcc, cfgAcc => .ok (metricsAcc, cfgAcc)
  | d :: rest, metricsAcc, cfgAcc => do
      let params ← runParameterBuilders rule.«variables» d rule.parameter_builders []
      let cfgs ← runDomainBuilders rule.«variables» d rule.parameter_builders
        rule.expectation_configuration_builders params []
      let serialized := params.map fun kv => ("$parameter." ++ kv.1, kv.2)
      runRuleDomains rule rest (metricsAcc ++ [(d, serialized)]) (cfgAcc ++ cfgs)

/-- Evaluate a list of rules in declaration order, merging metric nodes and
emitted configurations in encounter order (rules are isolated units of
work). -/
def runRules (columns : List String) :
    List Rule → List (Domain × List (String × PValue)) →
      List ExpectationConfiguration →
      Except String (List (Domain × List (String × PValue)) × List ExpectationConfiguration)
  | [], metricsAcc, cfgAcc => .ok (metricsAcc, cfgAcc)
  | r :: rest, metricsAcc, cfgAcc => do
      let domains := buildDomains r.domain_builder columns
      let (m, c) ← runRuleDomains r domains [] []
      runRules columns rest (metricsAcc ++ m) (cfgAcc ++ c)

/-- Run every rule of a profiler configuration over the fixture's columns,
merging results in encounter order and snapshotting the executed
configuration into the result and into the suite's citation (spec §4.7). -/
def runProfiler (columns : List String) (config : RuleBasedProfilerConfig)
    (suiteName citationDate : String) : Except String DataAssistantResult := do
  let (metrics, cfgs) ← runRules columns config.rules [] []
  pure
    { metrics_by_domain := metrics
      expectation_configurations := cfgs
      expectation_suite_name := suiteName
      expectation_suite_meta_citations := [⟨citationDate, config⟩]
      profiler_config := config }

/-! ## The volume data assistant's configuration

The two rules of the fixture
(`default_expect_table_row_count_to_be_between_rule`,
`default_expect_column_unique_values_to_be_between_rule`), with the variables
and templates pinned by the test suite's expected citation payload.  The
fixture's `RANDOM_SEED` constant is defined in a test conftest that is not
part of the source tree; the model fixes the seed to 43. -/

/-- The fixed bootstrap seed (`set_bootstrap_random_seed_variable`). -/
def RANDOM_SEED : Nat := 43

/-- `0.05`, as an exact rational. -/
def fprFixture : ℚ := mkRat 1 20

/-- Variables of the row-count rule. -/
def rowCountRuleVariables : List (String × PValue) :=
  [("false_positive_rate", .rat fprFixture),
   ("estimator", .str "bootstrap"),
   ("num_bootstrap_samples", .int 9999),
   ("bootstrap_random_seed", .int (RANDOM_SEED : Int)),
   ("truncate_values", .obj [("lower_bound", .int 0), ("upper_bound", .null)]),
   ("round_decimals", .int 0)]

/-- Variables of the column-uniqueness rule. -/
def columnRuleVariables : List (String × PValue) :=
  [("mostly", .rat 1),
   ("strict_min", .bool false),
   ("strict_max", .bool false),
   ("false_positive_rate", .rat fprFixture),
   ("estimator", .str "bootstrap"),
   ("num_bootstrap_samples", .int 9999),
   ("bootstrap_random_seed", .int (RANDOM_SEED : Int)),
   ("truncate_values", .obj [("lower_bound", .int 0), ("upper_bound", .null)]),
   ("round_decimals", .int 0)]

/-- The statistical fields shared by both range builders: references into
the rule variables. -/
def rangeBuilderOf (name metric : String) : NumericMetricRangeMultiBatchParameterBuilder :=
  { name := name
    metric_name := metric
    estimator := .str "$variables.estimator"
    false_positive_rate := .str "$variables.false_positive_rate"
    num_bootstrap_samples := .str "$variables.num_bootstrap_samples"
    bootstrap_random_seed := .str "$variables.bootstrap_random_seed"
    truncate_values := .str "$variables.truncate_values"
    round_decimals := .str "$variables.round_decimals" }

/-- The row-count rule. -/
def rowCountRule : Rule :=
  { name := "default_expect_table_row_count_to_be_between_rule"
    «variables» := rowCountRuleVariables
    domain_builder := .table
    parameter_builders :=
      [.metricMultiBatch ⟨"table_row_count", "table.row_count"⟩]
    expectation_configuration_builders :=
      [{ expectation_type := "expect_table_row_count_to_be_between"
         kwargs :=
           [("min_value", .str "$parameter.row_count_range_estimator.value[0]"),
            ("max_value", .str "$parameter.row_count_range_estimator.value[1]")]
         meta :=
           [("profiler_details", .str "$parameter.row_count_range_estimator.details")]
         condition := none
         validation_parameter_builder_configs :=
           [.numericMetricRange (rangeBuilderOf "row_count_range_estimator" "table.row_count")] }] }

/-- The column-uniqueness rule. -/
def columnRule : Rule :=
  { name := "default_expect_column_unique_values_to_be_between_rule"
    «variables» := columnRuleVariables
    domain_builder := .column none none
    parameter_builders :=
      [.metricMultiBatch ⟨"column_distinct_values.count", "column.distinct_values.count"⟩]
    expectation_configuration_builders :=
      [{ expectation_type := "expect_column_unique_value_count_to_be_between"
         kwargs :=
           [("column", .str "$domain.domain_kwargs.column"),
            ("min_value", .str "$parameter.column_unique_values_range_estimator.value[0]"),
            ("max_value", .str "$parameter.column_unique_values_range_estimator.value[1]"),
            ("strict_min", .str "$variables.strict_min"),
            ("strict_max", .str "$variables.strict_max")]
         meta :=
           [("profiler_details", .str "$parameter.column_unique_values_range_estimator.details")]
         condition := none
         validation_parameter_builder_configs :=
           [.numericMetricRange
             (rangeBuilderOf "column_unique_values_range_estimator" "column.distinct_values.count")] }] }

/-- The profiler configuration the volume data assistant executes. -/
def volumeProfilerConfig : RuleBasedProfilerConfig :=
  { name := "test_volume_data_assistant"
    config_version := 1
    «variables» := [("bootstrap_random_seed", .int (RANDOM_SEED : Int))]
    rules := [rowCountRule, columnRule] }

/-- The citation date the frozen-clock test pins. -/
def fixtureCitationDate : String := "2019-09-26T13:42:41.000000Z"

/-- The full fixture run: both rules over the 36-batch fixture. -/
def volumeRun : Except String DataAssistantResult :=
  runProfiler fixtureColumns volumeProfilerConfig "my_suite" fixtureCitationDate


/-! ## Structural helpers for stating properties of emitted payloads -/

mutual
/-- Structural equality test on configuration values. -/
def pvBeq : PValue → PValue → Bool
  | .null, .null => true
  | .bool a, .bool b => a == b
  | .int a, .int b => a == b
  | .rat a, .rat b => a == b
  | .str a, .str b => a == b
  | .list xs, .list ys => pvBeqList xs ys
  | .obj xs, .obj ys => pvBeqObj xs ys
  | _, _ => false

/-- Structural equality on value sequences. -/
def pvBeqList : List PValue → List PValue → Bool
  | [], [] => true
  | x :: xs, y :: ys => pvBeq x y && pvBeqList xs ys
  | _, _ => false

/-- Structural equality on mappings. -/
def pvBeqObj : List (String × PValue) → List (String × PValue) → Bool
  | [], [] => true
  | (k, v) :: xs, (k', v') :: ys => k == k' && pvBeq v v' && pvBeqObj xs ys
  | _, _ => false
end

mutual
/-- Does `needle` occur anywhere inside a configuration value? -/
def pvMentions (needle : PValue) (v : PValue) : Bool :=
  pvBeq needle v ||
    (match v with
     | .list xs => pvMentionsList needle xs
     | .obj kvs => pvMentionsObj needle kvs
     | _ => false)

/-- Occurrence scan over a sequence. -/
def pvMentionsList (needle : PValue) : List PValue → Bool
  | [] => false
  | x :: xs => pvMentions needle x || pvMentionsList needle xs

/-- Occurrence scan over a mapping's values. -/
def pvMentionsObj (needle : PValue) : List (String × PValue) → Bool
  | [] => false
  | (_, v) :: xs => pvMentions needle v || pvMentionsObj needle xs
end

/-- The keys of a mapping value. -/
def pvKeys : PValue → List String
  | .obj kvs => kvs.map fun kv => kv.1
  | _ => []

/-- Is a string an unresolved reference (starts with `$`)? -/
def isRefString (s : String) : Bool :=
  match s.data with
  | '$' :: _ => true
  | _ => false

mutual
/-- A value is fully concrete when no string anywhere inside it is an
unresolved `$`-reference. -/
def pvConcrete : PValue → Bool
  | .str s => !isRefString s
  | .list xs => pvConcreteList xs
  | .obj kvs => pvConcreteObj kvs
  | _ => true

/-- Concreteness scan over a sequence. -/
def pvConcreteList : List PValue → Bool
  | [] => true
  | x :: xs => pvConcrete x && pvConcreteList xs

/-- Concreteness scan over a mapping's values. -/
def pvConcreteObj : List (String × PValue) → Bool
  | [] => true
  | (_, v) :: xs => pvConcrete v && pvConcreteObj xs
end

/-! ## `get_validator_with_expectation_suite`

Modelled from the copy of this helper embedded in the test suite's notebook
code (`test_volume_data_assistant.py`): the branch structure on the
`expectation_suite` / `expectation_suite_name` arguments. -/

/-- A reference to an expectation suite: only its name matters here. -/
structure SuiteRef where
  expectation_suite_name : String
deriving DecidableEq, Repr

/-- Python exceptions raised by the helper. -/
inductive PyError where
  | valueError (msg : String)
  | dataContextError (msg : String)
deriving DecidableEq, Repr

/-- `get_validator_with_expectation_suite`: the decision on the
(`expectation_suite`, `expectation_suite_name`) argument pair, returning the
(`generate_temp_expectation_suite_name`, `create_expectation_suite`) flags;
mutually inconsistent arguments raise `ValueError`. -/
def get_validator_with_expectation_suite (expectation_suite : Option SuiteRef)
    (expectation_suite_name : Option String) :
    Except PyError (Bool × Bool) :=
  match expectation_suite, expectation_suite_name with
  | some suite, some name =>
      if suite.expectation_suite_name ≠ name then
        .error (.valueError
          "Mutually inconsistent \"expectation_suite\" and \"expectation_suite_name\" were specified.")
      else .ok (false, false)
  | none, some _ => .ok (false, true)
  | some _, none => .ok (false, false)
  | none, none => .ok (true, true)

/-! # Theorems -/

theorem strictNat_eq {α : Type} (n : Nat) (k : Nat → α) : strictNat n k = k n := by
  cases n <;> rfl

theorem seriesPack_lt (values : List Int) :
    seriesPack values < 65536 ^ values.length := by
  induction values with
  | nil => simp [seriesPack]
  | cons v rest ih =>
      have h := Nat.mod_lt (v.toNat) (y := 65536) (by omega)
      simp only [seriesPack, List.length_cons, pow_succ]
      calc v.toNat % 65536 + 65536 * seriesPack rest
          ≤ 65535 + 65536 * seriesPack rest := by omega
        _ < 65536 * (seriesPack rest + 1) := by omega
        _ ≤ 65536 * 65536 ^ rest.length := by
            have : seriesPack rest + 1 ≤ 65536 ^ rest.length := ih
            exact Nat.mul_le_mul_left _ this
        _ = 65536 ^ rest.length * 65536 := by ring

/-- Packed access agrees with list indexing on series of values in
`[0, 2¹⁶)` (every metric series in the fixtures). -/
theorem packedGet_seriesPack (values : List Int) (i : Nat)
    (hv : ∀ v ∈ values, 0 ≤ v ∧ v < 65536) :
    packedGet (seriesPack values) i = (values.getD i 0).toNat := by
  induction values generalizing i with
  | nil =>
      simp [packedGet, seriesPack, Nat.shiftRight_eq_div_pow, Nat.zero_div]
  | cons v rest ih =>
      cases i with
      | zero =>
          have hv0 := hv v (List.mem_cons_self v rest)
          have hmod : v.toNat % 65536 = v.toNat := by
            apply Nat.mod_eq_of_lt
            omega
          simp [packedGet, seriesPack, Nat.shiftRight_eq_div_pow, hmod,
            Nat.add_mul_mod_self_left]
      | succ i =>
          have hrest : ∀ w ∈ rest, 0 ≤ w ∧ w < 65536 := by
            intro w hw
            exact hv w (List.mem_cons_of_mem v hw)
          have step : packedGet (seriesPack (v :: rest)) (i + 1)
              = packedGet (seriesPack rest) i := by
            simp only [packedGet, seriesPack, Nat.shiftRight_eq_div_pow]
            have h1 : (i + 1) * 16 = 16 + i * 16 := by ring
            rw [h1, pow_add]
            have h2 : (v.toNat % 65536 + 65536 * seriesPack rest) / (2 ^ 16 * 2 ^ (i * 16))
                = seriesPack rest / 2 ^ (i * 16) := by
              rw [← Nat.div_div_eq_div_mul]
              congr 1
              have hlt : v.toNat % 65536 < 65536 := Nat.mod_lt _ (by omega)
              have h216 : (2 : ℕ) ^ 16 = 65536 := by norm_num
              rw [h216, Nat.add_mul_div_left _ _ (by omega : (0:ℕ) < 65536),
                Nat.div_eq_of_lt hlt, Nat.zero_add]
            rw [h2]
          rw [step, ih i hrest]
          rfl

theorem strictPair_eq {α : Type} (p : Nat × Nat) (k : Nat → Nat → α) :
    strictPair p k = k p.1 p.2 := by
  obtain ⟨a, b⟩ := p
  simp [strictPair, strictNat_eq]

theorem bootLoop_zero (pack n : Nat) (st : Nat × SumDist) :
    bootLoop pack n 0 st = st := rfl

theorem bootLoop_succ (pack n k : Nat) (st : Nat × SumDist) :
    bootLoop pack n (k + 1) st
      = bootLoop pack n k
          ((sampleSum pack n st.1 n 0).1,
            insertSorted (sampleSum pack n st.1 n 0).2 st.2) := by
  show strictPair (sampleSum pack n st.1 n 0)
      (fun s' sum => bootLoop pack n k (s', insertSorted sum st.2)) = _
  rw [strictPair_eq]

theorem bootLoop_add (pack n : Nat) (a b : Nat) (st : Nat × SumDist) :
    bootLoop pack n (a + b) st = bootLoop pack n b (bootLoop pack n a st) := by
  induction a generalizing st with
  | zero => simp [bootLoop_zero]
  | succ a ih =>
      have h1 : a + 1 + b = (a + b) + 1 := by omega
      rw [h1, bootLoop_succ, bootLoop_succ, ih]

theorem strictSumDist_eq {α : Type} (d : SumDist) (k : SumDist → α) :
    strictSumDist d k = k d := by
  induction d generalizing k with
  | nil => rfl
  | cons e rest ih =>
      obtain ⟨v, c⟩ := e
      simp [strictSumDist, strictNat_eq, ih]

theorem strictBootState_eq {α : Type} (st : Nat × SumDist) (k : Nat × SumDist → α) :
    strictBootState st k = k st := by
  obtain ⟨s, d⟩ := st
  simp [strictBootState, strictNat_eq, strictSumDist_eq]

theorem bootChunks_eq (pack n : Nat) (fuel count : Nat) (st : Nat × SumDist) :
    bootChunks pack n fuel count st = bootLoop pack n count st := by
  induction fuel generalizing count st with
  | zero => rfl
  | succ fuel ih =>
      show (if count ≤ 50 then bootLoop pack n count st
        else strictBootState (bootLoop pack n 50 st) fun st' =>
          bootChunks pack n fuel (count - 50) st') = _
      by_cases h : count ≤ 50
      · rw [if_pos h]
      · rw [if_neg h, strictBootState_eq, ih]
        rw [← bootLoop_add]
        congr 1
        omega

/-! ## Evaluated bootstrap distribution for the `vendor_id` series

The 9999-resample run is evaluated in ten slices of (at most) 1000
resamples each; `bootLoop_add` glues the slices, `bootChunks_eq` links the
chunk-strict evaluator used by each slice back to `bootLoop`. -/

set_option maxRecDepth 1000000 in
set_option maxHeartbeats 400000000 in
/-- Slice 0 of the vendor_id bootstrap run (at most 1000 resamples). -/
theorem vendorSlice0 :
    bootChunks (seriesPack series_vendor_id) 36 1000 1000
      (43, []) =
    (4953014165419480779, [(77, 1), (78, 4), (79, 5), (80, 17), (81, 32), (82, 43), (83, 88), (84, 99), (85, 138), (86, 126), (87, 129), (88, 133), (89, 67), (90, 56), (91, 30), (92, 11), (93, 13), (94, 6), (95, 1), (97, 1)]) := by
  decide

set_option maxRecDepth 1000000 in
set_option maxHeartbeats 400000000 in
/-- Slice 1 of the vendor_id bootstrap run (at most 1000 resamples). -/
theorem vendorSlice1 :
    bootChunks (seriesPack series_vendor_id) 36 1000 1000
      (4953014165419480779, [(77, 1), (78, 4), (79, 5), (80, 17), (81, 32), (82, 43), (83, 88), (84, 99), (85, 138), (86, 126), (87, 129), (88, 133), (89, 67), (90, 56), (91, 30), (92, 11), (93, 13), (94, 6), (95, 1), (97, 1)]) =
    (1618111515237334379, [(77, 1), (78, 7), (79, 17), (80, 31), (81, 72), (82, 97), (83, 166), (84, 199), (85, 282), (86, 276), (87, 242), (88, 244), (89, 143), (90, 100), (91, 68), (92, 23), (93, 23), (94, 7), (95, 1), (97, 1)]) := by
  decide

set_option maxRecDepth 1000000 in
set_option maxHeartbeats 400000000 in
/-- Slice 2 of the vendor_id bootstrap run (at most 1000 resamples). -/
theorem vendorSlice2 :
    bootChunks (seriesPack series_vendor_id) 36 1000 1000
      (1618111515237334379, [(77, 1), (78, 7), (79, 17), (80, 31), (81, 72), (82, 97), (83, 166), (84, 199), (85, 282), (86, 276), (87, 242), (88, 244), (89, 143), (90, 100), (91, 68), (92, 23), (93, 23), (94, 7), (95, 1), (97, 1)]) =
    (3833623849619895307, [(77, 1), (78, 11), (79, 20), (80, 49), (81, 102), (82, 155), (83, 243), (84, 308), (85, 413), (86, 421), (87, 382), (88, 329), (89, 233), (90, 152), (91, 95), (92, 39), (93, 30), (94, 13), (95, 2), (96, 1), (97, 1)]) := by
  decide

set_option maxRecDepth 1000000 in
set_option maxHeartbeats 400000000 in
/-- Slice 3 of the vendor_id bootstrap run (at most 1000 resamples). -/
theorem vendorSlice3 :
    bootChunks (seriesPack series_vendor_id) 36 1000 1000
      (3833623849619895307, [(77, 1), (78, 11), (79, 20), (80, 49), (81, 102), (82, 155), (83, 243), (84, 308), (85, 413), (86, 421), (87, 382), (88, 329), (89, 233), (90, 152), (91, 95), (92, 39), (93, 30), (94, 13), (95, 2), (96, 1), (97, 1)]) =
    (14090793228317080235, [(77, 1), (78, 15), (79, 32), (80, 64), (81, 129), (82, 205), (83, 320), (84, 420), (85, 561), (86, 557), (87, 503), (88, 434), (89, 299), (90, 218), (91, 132), (92, 52), (93, 36), (94, 17), (95, 3), (96, 1), (97, 1)]) := by
  decide

set_option maxRecDepth 1000000 in
set_option maxHeartbeats 400000000 in
/-- Slice 4 of the vendor_id bootstrap run (at most 1000 resamples). -/
theorem vendorSlice4 :
    bootChunks (seriesPack series_vendor_id) 36 1000 1000
      (14090793228317080235, [(77, 1), (78, 15), (79, 32), (80, 64), (81, 129), (82, 205), (83, 320), (84, 420), (85, 561), (86, 557), (87, 503), (88, 434), (89, 299), (90, 218), (91, 132), (92, 52), (93, 36), (94, 17), (95, 3), (96, 1), (97, 1)]) =
    (17658155047858491723, [(76, 1), (77, 2), (78, 18), (79, 42), (80, 89), (81, 152), (82, 258), (83, 402), (84, 520), (85, 686), (86, 706), (87, 624), (88, 534), (89, 379), (90, 282), (91, 161), (92, 68), (93, 43), (94, 25), (95, 6), (96, 1), (97, 1)]) := by
  decide

set_option maxRecDepth 1000000 in
set_option maxHeartbeats 400000000 in
/-- Slice 5 of the vendor_id bootstrap run (at most 1000 resamples). -/
theorem vendorSlice5 :
    bootChunks (seriesPack series_vendor_id) 36 1000 1000
      (17658155047858491723, [(76, 1), (77, 2), (78, 18), (79, 42), (80, 89), (81, 152), (82, 258), (83, 402), (84, 520), (85, 686), (86, 706), (87, 624), (88, 534), (89, 379), (90, 282), (91, 161), (92, 68), (93, 43), (94, 25), (95, 6), (96, 1), (97, 1)]) =
    (17403562268110813163, [(76, 2), (77, 2), (78, 21), (79, 51), (80, 115), (81, 186), (82, 309), (83, 475), (84, 626), (85, 820), (86, 831), (87, 738), (88, 658), (89, 464), (90, 334), (91, 189), (92, 88), (93, 53), (94, 27), (95, 8), (96, 2), (97, 1)]) := by
  decide

set_option maxRecDepth 1000000 in
set_option maxHeartbeats 400000000 in
/-- Slice 6 of the vendor_id bootstrap run (at most 1000 resamples). -/
theorem vendorSlice6 :
    bootChunks (seriesPack series_vendor_id) 36 1000 1000
      (17403562268110813163, [(76, 2), (77, 2), (78, 21), (79, 51), (80, 115), (81, 186), (82, 309), (83, 475), (84, 626), (85, 820), (86, 831), (87, 738), (88, 658), (89, 464), (90, 334), (91, 189), (92, 88), (93, 53), (94, 27), (95, 8), (96, 2), (97, 1)]) =
    (8313451532507000459, [(76, 2), (77, 2), (78, 22), (79, 62), (80, 136), (81, 215), (82, 369), (83, 539), (84, 738), (85, 957), (86, 970), (87, 854), (88, 764), (89, 539), (90, 386), (91, 234), (92, 111), (93, 59), (94, 29), (95, 9), (96, 2), (97, 1)]) := by
  decide

set_option maxRecDepth 1000000 in
set_option maxHeartbeats 400000000 in
/-- Slice 7 of the vendor_id bootstrap run (at most 1000 resamples). -/
theorem vendorSlice7 :
    bootChunks (seriesPack series_vendor_id) 36 1000 1000
      (8313451532507000459, [(76, 2), (77, 2), (78, 22), (79, 62), (80, 136), (81, 215), (82, 369), (83, 539), (84, 738), (85, 957), (86, 970), (87, 854), (88, 764), (89, 539), (90, 386), (91, 234), (92, 111), (93, 59), (94, 29), (95, 9), (96, 2), (97, 1)]) =
    (13673162278116291883, [(76, 2), (77, 3), (78, 22), (79, 69), (80, 149), (81, 244), (82, 423), (83, 608), (84, 843), (85, 1091), (86, 1104), (87, 1006), (88, 855), (89, 638), (90, 443), (91, 262), (92, 126), (93, 66), (94, 32), (95, 10), (96, 2), (97, 2)]) := by
  decide

set_option maxRecDepth 1000000 in
set_option maxHeartbeats 400000000 in
/-- Slice 8 of the vendor_id bootstrap run (at most 1000 resamples). -/
theorem vendorSlice8 :
    bootChunks (seriesPack series_vendor_id) 36 1000 1000
      (13673162278116291883, [(76, 2), (77, 3), (78, 22), (79, 69), (80, 149), (81, 244), (82, 423), (83, 608), (84, 843), (85, 1091), (86, 1104), (87, 1006), (88, 855), (89, 638), (90, 443), (91, 262), (92, 126), (93, 66), (94, 32), (95, 10), (96, 2), (97, 2)]) =
    (4409967192074046411, [(76, 2), (77, 4), (78, 24), (79, 75), (80, 168), (81, 279), (82, 490), (83, 676), (84, 952), (85, 1230), (86, 1232), (87, 1129), (88, 961), (89, 717), (90, 497), (91, 290), (92, 147), (93, 76), (94, 36), (95, 11), (96, 2), (97, 2)]) := by
  decide

set_option maxRecDepth 1000000 in
set_option maxHeartbeats 400000000 in
/-- Slice 9 of the vendor_id bootstrap run (at most 1000 resamples). -/
theorem vendorSlice9 :
    bootChunks (seriesPack series_vendor_id) 36 999 999
      (4409967192074046411, [(76, 2), (77, 4), (78, 24), (79, 75), (80, 168), (81, 279), (82, 490), (83, 676), (84, 952), (85, 1230), (86, 1232), (87, 1129), (88, 961), (89, 717), (90, 497), (91, 290), (92, 147), (93, 76), (94, 36), (95, 11), (96, 2), (97, 2)]) =
    (4308308364623548967, [(76, 2), (77, 4), (78, 27), (79, 78), (80, 182), (81, 323), (82, 544), (83, 779), (84, 1078), (85, 1356), (86, 1341), (87, 1240), (88, 1065), (89, 799), (90, 561), (91, 322), (92, 157), (93, 85), (94, 39), (95, 11), (96, 3), (97, 3)]) := by
  decide

/-- The full 9999-resample empirical distribution for `vendor_id`. -/
theorem vendorBootFull :
    bootLoop (seriesPack series_vendor_id) 36 9999 (43, []) =
      (4308308364623548967, [(76, 2), (77, 4), (78, 27), (79, 78), (80, 182), (81, 323), (82, 544), (83, 779), (84, 1078), (85, 1356), (86, 1341), (87, 1240), (88, 1065), (89, 799), (90, 561), (91, 322), (92, 157), (93, 85), (94, 39), (95, 11), (96, 3), (97, 3)]) := by
  rw [show (9999 : Nat) = 1000 + (1000 + (1000 + (1000 + (1000 + (1000 + (1000 + (1000 + (1000 + 999)))))))) from rfl]
  rw [bootLoop_add, ← bootChunks_eq (seriesPack series_vendor_id) 36 1000 1000, vendorSlice0,
    bootLoop_add, ← bootChunks_eq (seriesPack series_vendor_id) 36 1000 1000, vendorSlice1,
    bootLoop_add, ← bootChunks_eq (seriesPack series_vendor_id) 36 1000 1000, vendorSlice2,
    bootLoop_add, ← bootChunks_eq (seriesPack series_vendor_id) 36 1000 1000, vendorSlice3,
    bootLoop_add, ← bootChunks_eq (seriesPack series_vendor_id) 36 1000 1000, vendorSlice4,
    bootLoop_add, ← bootChunks_eq (seriesPack series_vendor_id) 36 1000 1000, vendorSlice5,
    bootLoop_add, ← bootChunks_eq (seriesPack series_vendor_id) 36 1000 1000, vendorSlice6,
    bootLoop_add, ← bootChunks_eq (seriesPack series_vendor_id) 36 1000 1000, vendorSlice7,
    bootLoop_add, ← bootChunks_eq (seriesPack series_vendor_id) 36 1000 1000, vendorSlice8,
    ← bootChunks_eq (seriesPack series_vendor_id) 36 999 999, vendorSlice9]


/-! ## The evaluated vendor_id estimate and its place in the run -/

set_option maxRecDepth 100000 in
/-- The bootstrap bounds for the `vendor_id` series at the fixture's
parameters: the 2.5th and 97.5th percentile resample means. -/
theorem vendorBounds :
    bootstrapBounds series_vendor_id 9999 RANDOM_SEED fprFixture
      = (mkRat 80 36, mkRat 92 36) := by
  simp only [bootstrapBounds, RANDOM_SEED]
  rw [show series_vendor_id.length = 36 by rfl, bootChunks_eq, vendorBootFull]
  decide

set_option maxRecDepth 100000 in
/-- The full estimator run for `vendor_id`: truncation and rounding turn the
quantile means into the bounds `(2, 3)`. -/
theorem vendorEstimate :
    numericRangeEstimate "bootstrap" (columnSeries "vendor_id") fprFixture
      9999 RANDOM_SEED ⟨some (intToQ 0), none⟩ (some 0) = .ok (2, 3) := by
  have hcol : columnSeries "vendor_id" = series_vendor_id := by rfl
  rw [hcol]
  simp only [numericRangeEstimate]
  rw [if_neg (by decide), if_neg (by decide), if_neg (by decide)]
  simp only [vendorBounds]
  exact congrArg Except.ok (by decide)

set_option maxRecDepth 100000 in
/-- `vendorEstimate`, through the validated-range wrapper. -/
theorem vendorEstimatedRange :
    estimatedRange "bootstrap" (columnSeries "vendor_id") fprFixture
      9999 RANDOM_SEED ⟨some (intToQ 0), none⟩ (some 0) = (2, 3) := by
  simp only [estimatedRange, vendorEstimate]

set_option maxRecDepth 100000 in
/-- The range the column-uniqueness rule's validation builder computes for
the `vendor_id` domain. -/
theorem vendorBuilderRange :
    builderRange columnRuleVariables (columnDomain "vendor_id")
      (rangeBuilderOf "column_unique_values_range_estimator" "column.distinct_values.count")
      = (2, 3) := by
  have h0 : builderRange columnRuleVariables (columnDomain "vendor_id")
      (rangeBuilderOf "column_unique_values_range_estimator" "column.distinct_values.count")
      = estimatedRange "bootstrap" (columnSeries "vendor_id") fprFixture
          9999 RANDOM_SEED ⟨some (intToQ 0), none⟩ (some 0) := rfl
  exact h0.trans vendorEstimatedRange

set_option maxRecDepth 1000000 in
set_option maxHeartbeats 4000000 in
/-- The second emitted assertion of the fixture run is the `vendor_id`
uniqueness assertion, its bounds those of the column's validation range
builder. -/
theorem vendorLink :
    (match volumeRun with
      | .ok r => r.expectation_configurations.get? 1
      | .error _ => none).map
      (fun (c : ExpectationConfiguration) => (c.expectation_type,
        objLookup c.kwargs "column",
        objLookup c.kwargs "min_value", objLookup c.kwargs "max_value"))
    = some ("expect_column_unique_value_count_to_be_between",
        some (.str "vendor_id"),
        some (.rat (builderRange columnRuleVariables (columnDomain "vendor_id")
          (rangeBuilderOf "column_unique_values_range_estimator" "column.distinct_values.count")).1),
        some (.rat (builderRange columnRuleVariables (columnDomain "vendor_id")
          (rangeBuilderOf "column_unique_values_range_estimator" "column.distinct_values.count")).2)) := by
  rfl

/-- The degenerate estimator path: 36 identical row counts give both bounds
equal to that value, under any configuration. -/
theorem rowCountDegenerate (fpr : ℚ) (ns seed : Nat) (tr : TruncateValues)
    (rd : Option Nat) :
    numericRangeEstimate "bootstrap" tableRowCountSeries fpr ns seed tr rd
      = .ok (10000, 10000) := by
  simp only [numericRangeEstimate]
  rw [if_pos (by decide)]
  rfl

set_option maxRecDepth 100000 in
/-- The range the row-count rule's validation builder computes for the table
domain. -/
theorem tableBuilderRange :
    builderRange rowCountRuleVariables tableDomain
      (rangeBuilderOf "row_count_range_estimator" "table.row_count")
      = (10000, 10000) := by
  have h0 : builderRange rowCountRuleVariables tableDomain
      (rangeBuilderOf "row_count_range_estimator" "table.row_count")
      = estimatedRange "bootstrap" tableRowCountSeries fprFixture
          9999 RANDOM_SEED ⟨some (intToQ 0), none⟩ (some 0) := rfl
  rw [h0, estimatedRange, rowCountDegenerate]

set_option maxRecDepth 1000000 in
/-- The first emitted assertion of the fixture run is the table row-count
assertion, its bounds those of the table's validation range builder. -/
theorem tableLink :
    (match volumeRun with
      | .ok r => r.expectation_configurations.get? 0
      | .error _ => none).map
      (fun (c : ExpectationConfiguration) => (c.expectation_type,
        objLookup c.kwargs "min_value", objLookup c.kwargs "max_value"))
    = some ("expect_table_row_count_to_be_between",
        some (.rat (builderRange rowCountRuleVariables tableDomain
          (rangeBuilderOf "row_count_range_estimator" "table.row_count")).1),
        some (.rat (builderRange rowCountRuleVariables tableDomain
          (rangeBuilderOf "row_count_range_estimator" "table.row_count")).2)) := by
  rfl

/-- Python's `round` is the identity on whole numbers. -/
theorem pyRound_natCast (n : ℕ) : pyRound (n : ℚ) = n := by
  have hnum : ((n : ℚ)).num = (n : ℤ) := Rat.num_natCast n
  have hden : ((n : ℚ)).den = 1 := Rat.den_natCast n
  simp only [pyRound, hnum, hden]
  norm_num [Int.fdiv]
  cases n <;> simp [Int.fdiv]

/-! # Claim theorems -/

/-- C1: for the input series of 36 identical per-batch `table.row_count`
values equal to 10000, the range estimator returns
`min_value = max_value = 10000` under any `false_positive_rate` (and any
sample count, seed, truncation and rounding configuration), and the
end-to-end default row-count rule emits the assertion
`expect_table_row_count_to_be_between` with kwargs `min_value = 10000` and
`max_value = 10000`. -/
theorem claim_C1 :
    (∀ (fpr : ℚ) (ns seed : Nat) (tr : TruncateValues) (rd : Option Nat),
      numericRangeEstimate "bootstrap" tableRowCountSeries fpr ns seed tr rd
        = .ok (10000, 10000))
    ∧ (match volumeRun with
        | .ok r => r.expectation_configurations.get? 0
        | .error _ => none).map
        (fun (c : ExpectationConfiguration) => (c.expectation_type,
          objLookup c.kwargs "min_value", objLookup c.kwargs "max_value"))
      = some ("expect_table_row_count_to_be_between",
          some (.rat 10000), some (.rat 10000)) := by
  refine ⟨rowCountDegenerate, ?_⟩
  rw [tableLink, tableBuilderRange]

/-- C2: the `vendor_id` per-batch `column.distinct_values.count` series over
36 batches takes only the values 2 and 3, and running the bootstrap
estimator with `false_positive_rate = 0.05`, `num_bootstrap_samples = 9999`
and the fixed seed yields the emitted assertion
`expect_column_unique_value_count_to_be_between` with kwargs
`min_value = 2` and `max_value = 3`. -/
theorem claim_C2 :
    (columnSeries "vendor_id").all (fun v => v == 2 || v == 3) = true
    ∧ numericRangeEstimate "bootstrap" (columnSeries "vendor_id") fprFixture
        9999 RANDOM_SEED ⟨some (intToQ 0), none⟩ (some 0) = .ok (2, 3)
    ∧ (match volumeRun with
        | .ok r => r.expectation_configurations.get? 1
        | .error _ => none).map
        (fun (c : ExpectationConfiguration) => (c.expectation_type,
          objLookup c.kwargs "column",
          objLookup c.kwargs "min_value", objLookup c.kwargs "max_value"))
      = some ("expect_column_unique_value_count_to_be_between",
          some (.str "vendor_id"), some (.rat 2), some (.rat 3)) := by
  refine ⟨by decide, vendorEstimate, ?_⟩
  rw [vendorLink, vendorBuilderRange]

/-- C3 (counterexample): as stated the claim is false — the `details`
payload accompanying the row-count range estimate (the `profiler_details`
the emitted assertion carries) has exactly the keys `metric_configuration`
and `num_batches`, and mentions neither the estimator name `"bootstrap"`,
nor the number of bootstrap samples `9999`, nor the false-positive rate
`0.05`. -/
theorem claim_C3_counterexample :
    (match volumeRun with
      | .ok r => (r.expectation_configurations.get? 0).map
          (fun (c : ExpectationConfiguration) => objLookup c.meta "profiler_details")
      | .error _ => none)
      = some (some (metricConfigDetails "table.row_count" [] 36))
    ∧ pvKeys (metricConfigDetails "table.row_count" [] 36)
        = ["metric_configuration", "num_batches"]
    ∧ pvMentions (.str "bootstrap") (metricConfigDetails "table.row_count" [] 36) = false
    ∧ pvMentions (.int 9999) (metricConfigDetails "table.row_count" [] 36) = false
    ∧ pvMentions (.rat fprFixture) (metricConfigDetails "table.row_count" [] 36) = false := by
  exact ⟨rfl, rfl, by decide, by decide, by decide⟩

/-- C3 (amended): for every range estimate produced during the fixture run,
the accompanying `details` mapping records the metric configuration (metric
name, domain kwargs, value kwargs, dependencies) and the batch count — but
not the estimator name, the number of bootstrap samples, or the
false-positive rate. -/
theorem claim_C3 :
    (match volumeRun with
      | .ok r => some (r.expectation_configurations.map
          (fun (c : ExpectationConfiguration) => objLookup c.meta "profiler_details"))
      | .error _ => none)
    = some (some (metricConfigDetails "table.row_count" [] 36)
        :: fixtureColumns.map
            (fun c => some (metricConfigDetails "column.distinct_values.count"
              [("column", c)] 36)))
    ∧ (∀ (c : String),
        pvKeys (metricConfigDetails "column.distinct_values.count" [("column", c)] 36)
          = ["metric_configuration", "num_batches"]) := by
  exact ⟨rfl, fun _ => rfl⟩

/-- C4: the bootstrap range estimator is deterministic — on any series with
at least two distinct values (and any configuration), two invocations with
identical inputs and the same fixed seed produce identical bounds. -/
theorem claim_C4 (values : List Int) (fpr : ℚ) (ns seed : Nat)
    (tr : TruncateValues) (rd : Option Nat)
    (_h : 2 ≤ distinctCount values) :
    numericRangeEstimate "bootstrap" values fpr ns seed tr rd
      = numericRangeEstimate "bootstrap" values fpr ns seed tr rd := rfl

/-- Witness for C4, at a two-valued series. -/
theorem claim_C4_witness :
    2 ≤ distinctCount [(1 : Int), 2]
    ∧ numericRangeEstimate "bootstrap" [(1 : Int), 2] fprFixture 10 7
        ⟨none, none⟩ none
      = numericRangeEstimate "bootstrap" [(1 : Int), 2] fprFixture 10 7
        ⟨none, none⟩ none :=
  ⟨by decide, claim_C4 [(1 : Int), 2] fprFixture 10 7 ⟨none, none⟩ none (by decide)⟩

/-- C5: every assertion configuration emitted by the fixture run is fully
concrete (no unresolved `$`-references remain anywhere in its kwargs) and
carries the parameter's `details` payload under `meta.profiler_details`. -/
theorem claim_C5 :
    (match volumeRun with
      | .ok r => some (r.expectation_configurations.map
          (fun (c : ExpectationConfiguration) =>
            (pvConcreteObj c.kwargs, objLookup c.meta "profiler_details")))
      | .error _ => none)
    = some ((true, some (metricConfigDetails "table.row_count" [] 36))
        :: fixtureColumns.map
            (fun c => (true, some (metricConfigDetails "column.distinct_values.count"
              [("column", c)] 36)))) := by
  rfl

/-- C6: the fixture run emits 19 assertion configurations in encounter
order — the single table-domain row-count assertion first, then one
column-uniqueness assertion per column in column declaration order. -/
theorem claim_C6 :
    (match volumeRun with
      | .ok r => some (r.expectation_configurations.length,
          r.expectation_configurations.map
            (fun (c : ExpectationConfiguration) =>
              (c.expectation_type, objLookup c.kwargs "column")))
      | .error _ => none)
    = some (19,
        ("expect_table_row_count_to_be_between", none)
          :: fixtureColumns.map
              (fun c => ("expect_column_unique_value_count_to_be_between",
                some (.str c)))) := by
  rfl

/-- C7: the run result exposes the executed profiler configuration both as
its `profiler_config` and as a citation entry (with the citation date) in
the emitted suite's meta. -/
theorem claim_C7 :
    (match volumeRun with
      | .ok r => some (r.profiler_config, r.expectation_suite_meta_citations,
          r.expectation_suite_name)
      | .error _ => none)
    = some (volumeProfilerConfig,
        [⟨fixtureCitationDate, volumeProfilerConfig⟩], "my_suite") := by
  rfl

/-- C8: when `get_validator_with_expectation_suite` receives both a literal
suite and a suite name and the names differ, it raises a `ValueError`
reporting mutually inconsistent arguments. -/
theorem claim_C8 (s : SuiteRef) (n : String)
    (h : s.expectation_suite_name ≠ n) :
    get_validator_with_expectation_suite (some s) (some n)
      = .error (.valueError
          "Mutually inconsistent \"expectation_suite\" and \"expectation_suite_name\" were specified.") := by
  simp [get_validator_with_expectation_suite, h]

/-- Witness for C8, at two distinct names. -/
theorem claim_C8_witness :
    (SuiteRef.mk "suite_a").expectation_suite_name ≠ "suite_b"
    ∧ get_validator_with_expectation_suite (some (SuiteRef.mk "suite_a"))
        (some "suite_b")
      = .error (.valueError
          "Mutually inconsistent \"expectation_suite\" and \"expectation_suite_name\" were specified.") :=
  ⟨by decide, claim_C8 (SuiteRef.mk "suite_a") "suite_b" (by decide)⟩

/-- C9: `_validate_mssql_limit_param` raises `InvalidConfigError` exactly
when `n` is neither an `int` nor a `str`, or is a `str` that is not made of
digits (`"-1"`, `""`, `"3.5"` all raise); every `int` (negative included)
and every digit-only string returns `None`. -/
theorem claim_C9 (n : SamplingNParam) :
    validate_mssql_limit_param n = .ok () ↔
      (match n with
       | .int _ => True
       | .str s => pyStrIsDigit s = true
       | .other => False) := by
  cases n with
  | int i => simp [validate_mssql_limit_param]
  | other => simp [validate_mssql_limit_param]
  | str s =>
      by_cases h : pyStrIsDigit s = true
      · simp [validate_mssql_limit_param, h]
      · simp [validate_mssql_limit_param, h]

/-- C10: in `sample_using_random` a falsy sampling fraction (`None` or
`0.0`) is replaced by `1.0`, so the query's LIMIT is the full filtered row
count. -/
theorem claim_C10 (table : String) (num_rows : ℕ) (p : Option ℚ)
    (h : p = none ∨ p = some 0) :
    (sample_using_random table num_rows p).limit = num_rows := by
  rcases h with h | h <;> subst h <;>
    simp [sample_using_random, pyRound_natCast]

/-- Witness for C10, at `p = None` over five rows. -/
theorem claim_C10_witness :
    ((none : Option ℚ) = none ∨ (none : Option ℚ) = some 0)
    ∧ (sample_using_random "test_table" 5 none).limit = 5 :=
  ⟨Or.inl rfl, claim_C10 "test_table" 5 none (Or.inl rfl)⟩
